import Mathlib

/-!
Verification of the moderation policy/escalation engine of the digianti
Telegram bot (src/bot.py): per-actor state tracking, violation
classification (flood, forbidden words, locked media), threshold-based
escalation (warn → mute → ban), enforcement with failure handling, and the
periodic mute-expiry sweep.

The embedding is shallow: each ORM row becomes a structure, timestamps are
integers, and every handler becomes a pure function from the pre-state and
the outcomes of its external Telegram calls to the post-state plus the list
of observable effects (external calls attempted, group notices sent, admin
log rows written), following the source control flow including its
exception handlers.
-/

namespace DigiAnti

/-- Per-(group, user) moderation state: mirrors the `GroupUser` ORM model
(`warns`, `is_muted`, `mute_until`, `last_message_time`,
`message_count_in_interval`); timestamps are integers. -/
structure GroupUser where
  warns : Int
  is_muted : Bool
  mute_until : Option Int
  last_message_time : Option Int
  message_count_in_interval : Int
  deriving Repr, DecidableEq

/-- Column defaults of the `GroupUser` model: `warns=0`, `is_muted=False`,
`mute_until=None`, `last_message_time=None`, `message_count_in_interval=0`. -/
def GroupUser.fresh : GroupUser :=
  { warns := 0, is_muted := false, mute_until := none,
    last_message_time := none, message_count_in_interval := 0 }

/-- The moderation-relevant settings of the `Group` ORM model. -/
structure Group where
  anti_flood_enabled : Bool
  anti_flood_limit : Int
  anti_flood_time : Int
  mute_on_warn_count : Int
  ban_on_warn_count : Int
  lock_photos : Bool
  lock_videos : Bool
  lock_links : Bool
  lock_forwards : Bool
  lock_stickers : Bool
  lock_gifs : Bool
  lock_voice : Bool
  lock_documents : Bool
  lock_videonotes : Bool
  lock_polls : Bool
  lock_games : Bool
  deriving Repr, DecidableEq

/-- Column defaults of the `Group` model: flood limit 5 messages per 10
seconds, mute at 3 warns, ban at 5 warns, all media locks off. -/
def Group.defaults : Group :=
  { anti_flood_enabled := true, anti_flood_limit := 5, anti_flood_time := 10,
    mute_on_warn_count := 3, ban_on_warn_count := 5,
    lock_photos := false, lock_videos := false, lock_links := false,
    lock_forwards := false, lock_stickers := false, lock_gifs := false,
    lock_voice := false, lock_documents := false, lock_videonotes := false,
    lock_polls := false, lock_games := false }

/-- The fields of `update.message` that `handle_all_messages` inspects.
`text` is the character sequence of a text message (`none` for non-text);
`has_link_entity` abbreviates the source's "has entities or caption
entities, one of which carries a url". -/
structure Message where
  text : Option (List Char)
  new_chat_members : Bool
  left_chat_member : Bool
  photo : Bool
  video : Bool
  has_link_entity : Bool
  forward_from : Bool
  forward_from_chat : Bool
  sticker : Bool
  animation : Bool
  voice : Bool
  document : Bool
  video_note : Bool
  poll : Bool
  game : Bool
  deriving Repr, DecidableEq

/-- A plain text message with no media and no system-event flags. -/
def Message.textOnly (t : List Char) : Message :=
  { text := some t, new_chat_members := false, left_chat_member := false,
    photo := false, video := false, has_link_entity := false,
    forward_from := false, forward_from_chat := false, sticker := false,
    animation := false, voice := false, document := false,
    video_note := false, poll := false, game := false }

/-- Outcomes of the external Telegram calls a handler may attempt:
`delete_ok` for `message.delete()`, `ban_ok` for `ban_chat_member`,
`restrict_ok` for the muting `restrict_chat_member`, `unrestrict_ok` for the
permission-restoring `restrict_chat_member`; `is_bot_admin` is the result of
the bot's own admin-status check. `false` means the call raises. -/
structure Env where
  is_bot_admin : Bool
  delete_ok : Bool
  ban_ok : Bool
  restrict_ok : Bool
  unrestrict_ok : Bool
  deriving Repr, DecidableEq

/-- Environment in which the bot is admin and every external call succeeds. -/
def Env.allOk : Env :=
  { is_bot_admin := true, delete_ok := true, ban_ok := true,
    restrict_ok := true, unrestrict_ok := true }

/-- Chat-member status as reported by `get_chat_member`. -/
inductive MemberStatus where
  | administrator
  | owner
  | member
  | restricted
  | left
  | kicked
  deriving Repr, DecidableEq

/-- `is_user_admin_or_owner`: the configured bot owner (`OWNER_USER_ID`)
bypasses all group permissions; otherwise the chat-member status must be
administrator or owner; a failed status lookup (`none`) yields `false`. -/
def is_user_admin_or_owner (user_id owner_user_id : Int)
    (member : Option MemberStatus) : Bool :=
  if user_id = owner_user_id then
    true
  else
    match member with
    | some MemberStatus.administrator => true
    | some MemberStatus.owner => true
    | _ => false

/-- The `action` strings written to the `AdminLog` table by the moderation
paths. The table has no success flag: a row is only ever written after the
corresponding action succeeded. -/
inductive LogAction where
  | warn
  | auto_ban_on_warn
  | auto_mute_on_warn
  | unwarn
  | ban
  | auto_unmute
  | auto_warn_flood
  | auto_ban_flood
  | auto_mute_flood
  | auto_warn_forbidden_word
  | auto_ban_forbidden_word
  | auto_mute_forbidden_word
  | delete_locked_media
  | auto_unmute_expired
  deriving Repr, DecidableEq

/-- The suffix appended to the `/warn` reply by the escalation branches. -/
inductive ReplyExtra where
  | autoBanned
  | banFailed
  | autoMuted
  | muteFailed
  deriving Repr, DecidableEq

/-- Messages the handlers send to the group. -/
inductive Notice where
  | muteExpired
  | floodWarn (warns : Int)
  | floodBanned
  | floodMuted
  | wordWarn (word : List Char) (warns : Int)
  | wordBanned
  | wordMuted
  | warnReply (warns : Int) (extra : Option ReplyExtra)
  | banReply
  | banError
  deriving Repr, DecidableEq

/-- Observable effects of a handler run, in program order: external calls
with their outcome, group notices, and admin-log rows. -/
inductive Effect where
  | deleteCall (ok : Bool)
  | banCall (ok : Bool)
  | restrictCall (ok : Bool) (untilDate : Int)
  | unrestrictCall (ok : Bool)
  | sendGroup (n : Notice)
  | adminLog (a : LogAction)
  deriving Repr, DecidableEq

/-- Whether an effect is an external ban call. -/
def Effect.isBanCall : Effect → Bool
  | Effect.banCall _ => true
  | _ => false

/-- Whether an effect is an external restrict (mute) call. -/
def Effect.isRestrictCall : Effect → Bool
  | Effect.restrictCall _ _ => true
  | _ => false

/-- Whether an effect is an external message-delete call. -/
def Effect.isDeleteCall : Effect → Bool
  | Effect.deleteCall _ => true
  | _ => false

/-- Whether an effect is an admin-log row. -/
def Effect.isAdminLog : Effect → Bool
  | Effect.adminLog _ => true
  | _ => false

/-- `get_or_create_group_user`: returns the stored row when present,
otherwise a fresh row with the model's column defaults. -/
def get_or_create_group_user : Option GroupUser → GroupUser
  | some gu => gu
  | none => GroupUser.fresh

/-- The mute duration hard-coded in the escalation branches:
`timedelta(minutes=60)`. -/
def muteSeconds : Int := 3600

/-- Result of one stage of `handle_all_messages`: the (possibly deleted)
actor row, the effects emitted so far, and whether control falls through to
the next stage (`proceed = false` models an early `return`). -/
structure StageRes where
  gu : Option GroupUser
  effects : List Effect
  proceed : Bool
  deriving Repr, DecidableEq

/-- Sequencing of stages: run the next stage only when the previous one fell
through with a live row, accumulating effects in program order. -/
def StageRes.andThen (r : StageRes) (f : GroupUser → StageRes) : StageRes :=
  if r.proceed then
    match r.gu with
    | some gu =>
        let r2 := f gu
        { gu := r2.gu, effects := r.effects ++ r2.effects, proceed := r2.proceed }
    | none => r
  else r

/-- Section 6.1 of `handle_all_messages`: join/leave system messages are
deleted and processing stops; if the delete raises `BadRequest` the handler
logs and falls through. -/
def system_stage (env : Env) (msg : Message) (gu : GroupUser) : StageRes :=
  if msg.new_chat_members || msg.left_chat_member then
    if env.delete_ok then
      { gu := some gu, effects := [Effect.deleteCall true], proceed := false }
    else
      { gu := some gu, effects := [Effect.deleteCall false], proceed := true }
  else
    { gu := some gu, effects := [], proceed := true }

/-- The truthiness test `mute_until and mute_until < datetime.utcnow()`:
a `None` `mute_until` is falsy. -/
def mute_expired (now : Int) (gu : GroupUser) : Bool :=
  match gu.mute_until with
  | some mu => decide (mu < now)
  | none => false

/-- Section 6.2 of `handle_all_messages`: for a row marked muted, an expired
mute is reconciled inline when the bot is admin (unrestrict, then clear
`is_muted`/`mute_until` — the clear also happens when the unrestrict call
raises) and processing continues; if the bot is not admin the row is left
as-is and processing continues; a non-expired (or `None`-deadline) mute
deletes the message when possible and always stops processing. -/
def muted_stage (env : Env) (now : Int) (gu : GroupUser) : StageRes :=
  if gu.is_muted then
    if mute_expired now gu then
      if env.is_bot_admin then
        if env.unrestrict_ok then
          { gu := some { gu with is_muted := false, mute_until := none },
            effects := [Effect.unrestrictCall true, Effect.sendGroup Notice.muteExpired,
                        Effect.adminLog LogAction.auto_unmute],
            proceed := true }
        else
          { gu := some { gu with is_muted := false, mute_until := none },
            effects := [Effect.unrestrictCall false], proceed := true }
      else
        { gu := some gu, effects := [], proceed := true }
    else
      if env.is_bot_admin then
        if env.delete_ok then
          { gu := some gu, effects := [Effect.deleteCall true], proceed := false }
        else
          { gu := some gu, effects := [Effect.deleteCall false], proceed := false }
      else
        { gu := some gu, effects := [], proceed := false }
  else
    { gu := some gu, effects := [], proceed := true }

/-- The flood-counter update of section 6.3: when the previous message is
recent (`now - last_message_time < anti_flood_time`) the interval counter is
incremented, otherwise it restarts at 1; the stored timestamp is refreshed
to `now` on every message. -/
def flood_update (g : Group) (now : Int) (gu : GroupUser) : GroupUser :=
  let gu1 :=
    match gu.last_message_time with
    | some lt =>
        if now - lt < g.anti_flood_time then
          { gu with message_count_in_interval := gu.message_count_in_interval + 1 }
        else
          { gu with message_count_in_interval := 1 }
    | none => { gu with message_count_in_interval := 1 }
  { gu1 with last_message_time := some now }

/-- The escalation block repeated verbatim in the flood and forbidden-word
branches of `handle_all_messages` (after their warn increment was
committed): ban first when `warns >= ban_on_warn_count` (deleting the row on
success), else mute for 60 minutes when `warns >= mute_on_warn_count`; a
raising external call is caught by the surrounding handler, so on failure
the committed warn increment stands, nothing further is recorded, and no
notice is sent. -/
def auto_escalate (g : Group) (env : Env) (now : Int) (gu : GroupUser)
    (banNotice muteNotice : Notice) (banLog muteLog : LogAction) :
    Option GroupUser × List Effect :=
  if gu.warns ≥ g.ban_on_warn_count then
    if env.ban_ok then
      (none, [Effect.banCall true, Effect.sendGroup banNotice, Effect.adminLog banLog])
    else
      (some gu, [Effect.banCall false])
  else if gu.warns ≥ g.mute_on_warn_count then
    if env.restrict_ok then
      (some { gu with is_muted := true, mute_until := some (now + muteSeconds) },
       [Effect.restrictCall true (now + muteSeconds), Effect.sendGroup muteNotice,
        Effect.adminLog muteLog])
    else
      (some gu, [Effect.restrictCall false (now + muteSeconds)])
  else
    (some gu, [])

/-- Section 6.3 of `handle_all_messages`: for text messages with anti-flood
enabled, the counter update is committed first; when the incremented count
exceeds `anti_flood_limit` the message is deleted, the warn committed, and
the escalation block runs, after which processing always stops (also when
the bot is not admin or the delete raises — in the latter case the warn
increment never happens). -/
def flood_stage (g : Group) (env : Env) (now : Int) (hasText : Bool)
    (gu : GroupUser) : StageRes :=
  if g.anti_flood_enabled && hasText then
    let gu1 := flood_update g now gu
    if gu1.message_count_in_interval > g.anti_flood_limit then
      if env.is_bot_admin then
        if env.delete_ok then
          let gu2 := { gu1 with warns := gu1.warns + 1 }
          let esc := auto_escalate g env now gu2 Notice.floodBanned Notice.floodMuted
                       LogAction.auto_ban_flood LogAction.auto_mute_flood
          { gu := esc.1,
            effects := [Effect.deleteCall true, Effect.sendGroup (Notice.floodWarn gu2.warns),
                        Effect.adminLog LogAction.auto_warn_flood] ++ esc.2,
            proceed := false }
        else
          { gu := some gu1, effects := [Effect.deleteCall false], proceed := false }
      else
        { gu := some gu1, effects := [], proceed := false }
    else
      { gu := some gu1, effects := [], proceed := true }
  else
    { gu := some gu, effects := [], proceed := true }

/-- Python's substring containment `needle in haystack`, on character
lists. -/
def substring_in (needle : List Char) : List Char → Bool
  | [] => needle.isEmpty
  | c :: rest => needle.isPrefixOf (c :: rest) || substring_in needle rest

/-- Section 6.4 of `handle_all_messages`: the message text is lowercased and
scanned against the group's forbidden words in list order; on the first word
occurring as a substring the message is deleted, the warn committed, and the
escalation block runs, after which processing stops (also when the bot is
not admin or the delete raises). -/
def word_stage (g : Group) (env : Env) (now : Int) (words : List (List Char))
    (text : Option (List Char)) (gu : GroupUser) : StageRes :=
  match text with
  | none => { gu := some gu, effects := [], proceed := true }
  | some t =>
    let lower := t.map Char.toLower
    match words.find? (fun w => substring_in w lower) with
    | none => { gu := some gu, effects := [], proceed := true }
    | some w =>
      if env.is_bot_admin then
        if env.delete_ok then
          let gu2 := { gu with warns := gu.warns + 1 }
          let esc := auto_escalate g env now gu2 Notice.wordBanned Notice.wordMuted
                       LogAction.auto_ban_forbidden_word LogAction.auto_mute_forbidden_word
          { gu := esc.1,
            effects := [Effect.deleteCall true,
                        Effect.sendGroup (Notice.wordWarn w gu2.warns),
                        Effect.adminLog LogAction.auto_warn_forbidden_word] ++ esc.2,
            proceed := false }
        else
          { gu := some gu, effects := [Effect.deleteCall false], proceed := false }
      else
        { gu := some gu, effects := [], proceed := false }

/-- Which media-lock rule (if any) fires for a message: the `if/elif` chain
of section 6.5 in source order. NB the forward condition keeps the source's
operator precedence `lock_forwards and forward_from or forward_from_chat`. -/
def media_locked (g : Group) (msg : Message) : Bool :=
  if g.lock_photos && msg.photo then true
  else if g.lock_videos && msg.video then true
  else if g.lock_links && msg.has_link_entity then true
  else if (g.lock_forwards && msg.forward_from) || msg.forward_from_chat then true
  else if g.lock_stickers && msg.sticker then true
  else if g.lock_gifs && msg.animation then true
  else if g.lock_voice && msg.voice then true
  else if g.lock_documents && msg.document then true
  else if g.lock_videonotes && msg.video_note then true
  else if g.lock_polls && msg.poll then true
  else if g.lock_games && msg.game then true
  else false

/-- Section 6.5 of `handle_all_messages`: when the bot is admin and a media
lock fires, the message is deleted, a log row written, and processing stops;
a raising delete propagates to the outer handler (no log row, stop). -/
def media_stage (g : Group) (env : Env) (msg : Message) (gu : GroupUser) : StageRes :=
  if env.is_bot_admin then
    if media_locked g msg then
      if env.delete_ok then
        { gu := some gu,
          effects := [Effect.deleteCall true, Effect.adminLog LogAction.delete_locked_media],
          proceed := false }
      else
        { gu := some gu, effects := [Effect.deleteCall false], proceed := false }
    else
      { gu := some gu, effects := [], proceed := true }
  else
    { gu := some gu, effects := [], proceed := true }

/-- `handle_all_messages`: messages from the bot itself or from a user who
is admin, group owner, or the configured bot owner return immediately,
before any row is loaded or created; otherwise the row is loaded (or
created) and the stages of sections 6.1–6.5 run in order with early
returns. -/
def handle_all_messages (g : Group) (words : List (List Char)) (env : Env)
    (now : Int) (user_id bot_id owner_user_id : Int)
    (member : Option MemberStatus) (msg : Message) (gu0 : Option GroupUser) :
    Option GroupUser × List Effect :=
  if user_id = bot_id ∨ is_user_admin_or_owner user_id owner_user_id member = true then
    (gu0, [])
  else
    let r0 : StageRes :=
      { gu := some (get_or_create_group_user gu0), effects := [], proceed := true }
    let r := ((((r0.andThen (system_stage env msg)).andThen
                 (muted_stage env now)).andThen
                 (flood_stage g env now msg.text.isSome)).andThen
                 (word_stage g env now words msg.text)).andThen
                 (media_stage g env msg)
    (r.gu, r.effects)

/-- Core of `warn_command` (after the admin/target checks): the warn
increment is committed first, then ban when `warns >= ban_on_warn_count`
(deleting the row on success), else mute for 60 minutes when
`warns >= mute_on_warn_count`; each external failure is caught and reported
in the aggregated group reply, which is always sent last. -/
def warn_command (g : Group) (env : Env) (now : Int) (gu0 : Option GroupUser) :
    Option GroupUser × List Effect :=
  let gu1 := get_or_create_group_user gu0
  let gu := { gu1 with warns := gu1.warns + 1 }
  if gu.warns ≥ g.ban_on_warn_count then
    if env.ban_ok then
      (none, [Effect.adminLog LogAction.warn, Effect.banCall true,
              Effect.adminLog LogAction.auto_ban_on_warn,
              Effect.sendGroup (Notice.warnReply gu.warns (some ReplyExtra.autoBanned))])
    else
      (some gu, [Effect.adminLog LogAction.warn, Effect.banCall false,
                 Effect.sendGroup (Notice.warnReply gu.warns (some ReplyExtra.banFailed))])
  else if gu.warns ≥ g.mute_on_warn_count then
    if env.restrict_ok then
      (some { gu with is_muted := true, mute_until := some (now + muteSeconds) },
       [Effect.adminLog LogAction.warn, Effect.restrictCall true (now + muteSeconds),
        Effect.adminLog LogAction.auto_mute_on_warn,
        Effect.sendGroup (Notice.warnReply gu.warns (some ReplyExtra.autoMuted))])
    else
      (some gu, [Effect.adminLog LogAction.warn,
                 Effect.restrictCall false (now + muteSeconds),
                 Effect.sendGroup (Notice.warnReply gu.warns (some ReplyExtra.muteFailed))])
  else
    (some gu, [Effect.adminLog LogAction.warn,
               Effect.sendGroup (Notice.warnReply gu.warns none)])

/-- The state update of `unwarn_command`: decrement only when the count is
positive. -/
def unwarn_command_update (gu : GroupUser) : GroupUser :=
  if gu.warns > 0 then { gu with warns := gu.warns - 1 } else gu

/-- Core of `ban_command`: the external ban runs first; on success the
`GroupUser` row is deleted (when present) and the action logged; on failure
the store is untouched and only an error reply is sent. -/
def ban_command (env : Env) (gu0 : Option GroupUser) :
    Option GroupUser × List Effect :=
  if env.ban_ok then
    (none, [Effect.banCall true, Effect.sendGroup Notice.banReply,
            Effect.adminLog LogAction.ban])
  else
    (gu0, [Effect.banCall false, Effect.sendGroup Notice.banError])

/-- `add_forbidden_word`: inserts `word.lower()` unless already present;
returns the updated word list and whether a word was added. -/
def add_forbidden_word (words : List (List Char)) (w : List Char) :
    List (List Char) × Bool :=
  let lw := w.map Char.toLower
  if words.contains lw then (words, false) else (words ++ [lw], true)

/-- Outcome of the sweeper's unrestrict call: success, a `BadRequest`
(user left or already unmuted), or another `TelegramError`. -/
inductive UnrestrictOutcome where
  | success
  | badRequest
  | telegramError
  deriving Repr, DecidableEq

/-- The `expired_mutes` query filter of `check_expired_mutes`:
`is_muted == True AND mute_until < now` (a SQL `NULL` deadline matches
nothing). -/
def isExpiredMute (now : Int) (gu : GroupUser) : Bool :=
  gu.is_muted && mute_expired now gu

/-- One iteration of the `check_expired_mutes` loop body for a row matched
by the query filter: skipped when the bot is not admin; on success the mute
fields are cleared and the action logged; on `BadRequest` the fields are
cleared anyway ("to prevent repeated attempts") without a log row; on any
other `TelegramError` the row is left untouched. -/
def check_expired_mutes_step (bot_is_admin : Bool) (outcome : UnrestrictOutcome)
    (gu : GroupUser) : GroupUser × List Effect :=
  if bot_is_admin then
    match outcome with
    | UnrestrictOutcome.success =>
        ({ gu with is_muted := false, mute_until := none },
         [Effect.unrestrictCall true, Effect.adminLog LogAction.auto_unmute_expired])
    | UnrestrictOutcome.badRequest =>
        ({ gu with is_muted := false, mute_until := none },
         [Effect.unrestrictCall false])
    | UnrestrictOutcome.telegramError =>
        (gu, [Effect.unrestrictCall false])
  else
    (gu, [])

/-- Modelled from the spec: the fixed-window flood counter of section 4.1
("If `now - floodWindowStart < floodWindowSeconds`, increment `floodCount`;
else reset `floodWindowStart = now`, `floodCount = 1`"), for comparison with
`flood_update`. The stored timestamp is the window start and is left
unchanged while the window is open. -/
def flood_update_fixed_window (g : Group) (now : Int) (gu : GroupUser) : GroupUser :=
  match gu.last_message_time with
  | some ws =>
      if now - ws < g.anti_flood_time then
        { gu with message_count_in_interval := gu.message_count_in_interval + 1 }
      else
        { gu with last_message_time := some now, message_count_in_interval := 1 }
  | none =>
      { gu with last_message_time := some now, message_count_in_interval := 1 }

/-- Fold a flood-counter update over a list of message timestamps. -/
def run_flood (f : Group → Int → GroupUser → GroupUser) (g : Group)
    (times : List Int) (gu : GroupUser) : GroupUser :=
  times.foldl (fun s t => f g t s) gu

/-- `n` consecutive runs of `warn_command` (all external calls succeeding or
not, per `env`), threading the stored row. -/
def iterate_warn (g : Group) (env : Env) (now : Int) :
    Nat → Option GroupUser → Option GroupUser
  | 0, s => s
  | Nat.succ n, s => (warn_command g env now (iterate_warn g env now n s)).1

/-- A row one warn short of the default ban threshold and mid-flood: the
next flood message pushes it to 5 warns, reaching ban (5) and mute (3) at
once. -/
def guBothThresholds : GroupUser :=
  { warns := 4, is_muted := false, mute_until := none,
    last_message_time := some 95, message_count_in_interval := 5 }

/-- A row at 4 warns, flood state idle. -/
def guWarnFour : GroupUser :=
  { warns := 4, is_muted := false, mute_until := none,
    last_message_time := none, message_count_in_interval := 0 }

/-- A row at 5 warns, flood state idle. -/
def guWarnFive : GroupUser :=
  { warns := 5, is_muted := false, mute_until := none,
    last_message_time := none, message_count_in_interval := 0 }

/-- Environment in which only the restrict (mute) call fails. -/
def envNoRestrict : Env := { Env.allOk with restrict_ok := false }

/-- Environment in which the bot is not an administrator. -/
def envNotAdmin : Env := { Env.allOk with is_bot_admin := false }

/-- A row two warns short of nothing and mid-flood: the next flood message
pushes it to 3 warns, exactly the default mute threshold. -/
def guNearMute : GroupUser :=
  { warns := 2, is_muted := false, mute_until := none,
    last_message_time := some 95, message_count_in_interval := 5 }

/-- A row marked muted whose deadline (50) lies in the past of time 100. -/
def guMutedExpired : GroupUser :=
  { warns := 1, is_muted := true, mute_until := some 50,
    last_message_time := none, message_count_in_interval := 0 }

/-- A sweeper-eligible row: muted with deadline 50, two warns. -/
def guSweep : GroupUser :=
  { warns := 2, is_muted := true, mute_until := some 50,
    last_message_time := none, message_count_in_interval := 0 }

/-- A corrupted row: marked muted with no deadline stored. -/
def guCorrupt : GroupUser :=
  { warns := 0, is_muted := true, mute_until := none,
    last_message_time := none, message_count_in_interval := 0 }

theorem flood_update_warns (g : Group) (now : Int) (gu : GroupUser) :
    (flood_update g now gu).warns = gu.warns := by
  unfold flood_update
  rcases h : gu.last_message_time with _ | lt <;> simp [h] <;> split <;> rfl

theorem flood_update_is_muted (g : Group) (now : Int) (gu : GroupUser) :
    (flood_update g now gu).is_muted = gu.is_muted := by
  unfold flood_update
  rcases h : gu.last_message_time with _ | lt <;> simp [h] <;> split <;> rfl

theorem flood_update_mute_until (g : Group) (now : Int) (gu : GroupUser) :
    (flood_update g now gu).mute_until = gu.mute_until := by
  unfold flood_update
  rcases h : gu.last_message_time with _ | lt <;> simp [h] <;> split <;> rfl

theorem auto_escalate_calls (g : Group) (env : Env) (now : Int) (gu : GroupUser)
    (bn mn : Notice) (bl ml : LogAction) :
    ((auto_escalate g env now gu bn mn bl ml).2.filter Effect.isBanCall).length =
      (if gu.warns ≥ g.ban_on_warn_count then 1 else 0) ∧
    ((auto_escalate g env now gu bn mn bl ml).2.filter Effect.isRestrictCall).length =
      (if gu.warns ≥ g.ban_on_warn_count then 0
       else if gu.warns ≥ g.mute_on_warn_count then 1 else 0) := by
  unfold auto_escalate
  rcases env with ⟨adm, del, ban, rst, unr⟩
  by_cases hb : gu.warns ≥ g.ban_on_warn_count <;>
    by_cases hm : gu.warns ≥ g.mute_on_warn_count <;>
    cases ban <;> cases rst <;>
    simp [hb, hm, Effect.isBanCall, Effect.isRestrictCall, List.filter]

/-- C1: each classified violation yields exactly one action class, with the
ban threshold checked before the mute threshold: in `warn_command` and in
the flood branch of `handle_all_messages`, the effects contain exactly one
external ban call when the incremented warn count reaches
`ban_on_warn_count` — and then no restrict (mute) call, even when the mute
threshold is reached at the same time, including misconfigurations with
`ban_on_warn_count ≤ mute_on_warn_count` — exactly one restrict call when
it reaches only `mute_on_warn_count`, and neither otherwise (warn only). -/
theorem one_action_class_ban_first (g : Group) (env : Env) (now : Int)
    (gu0 : Option GroupUser) (gu : GroupUser)
    (hadm : env.is_bot_admin = true) (hdel : env.delete_ok = true)
    (hfl : g.anti_flood_enabled = true)
    (hex : (flood_update g now gu).message_count_in_interval > g.anti_flood_limit) :
    (((warn_command g env now gu0).2.filter Effect.isBanCall).length =
       (if (get_or_create_group_user gu0).warns + 1 ≥ g.ban_on_warn_count then 1 else 0) ∧
     ((warn_command g env now gu0).2.filter Effect.isRestrictCall).length =
       (if (get_or_create_group_user gu0).warns + 1 ≥ g.ban_on_warn_count then 0
        else if (get_or_create_group_user gu0).warns + 1 ≥ g.mute_on_warn_count then 1
        else 0)) ∧
    (((flood_stage g env now true gu).effects.filter Effect.isBanCall).length =
       (if gu.warns + 1 ≥ g.ban_on_warn_count then 1 else 0) ∧
     ((flood_stage g env now true gu).effects.filter Effect.isRestrictCall).length =
       (if gu.warns + 1 ≥ g.ban_on_warn_count then 0
        else if gu.warns + 1 ≥ g.mute_on_warn_count then 1 else 0)) := by
  constructor
  · unfold warn_command
    rcases env with ⟨adm, del, ban, rst, unr⟩
    by_cases hb : (get_or_create_group_user gu0).warns + 1 ≥ g.ban_on_warn_count <;>
      by_cases hm : (get_or_create_group_user gu0).warns + 1 ≥ g.mute_on_warn_count <;>
      cases ban <;> cases rst <;>
      simp [hb, hm, Effect.isBanCall, Effect.isRestrictCall, List.filter]
  · have hesc := auto_escalate_calls g env now
      { flood_update g now gu with warns := (flood_update g now gu).warns + 1 }
      Notice.floodBanned Notice.floodMuted LogAction.auto_ban_flood LogAction.auto_mute_flood
    simp [flood_stage, hfl, hadm, hdel, hex, List.filter_append, List.filter,
      Effect.isBanCall, Effect.isRestrictCall, flood_update_warns] at hesc ⊢
    split_ifs at hesc ⊢ <;> omega

/-- C2: after a successful ban — manual `/ban`, automatic in `warn_command`,
or automatic in the message pipeline's escalation block — the
(group, actor) row is deleted, and a subsequent get-or-create returns a
fresh record with zero warns and not muted. -/
theorem ban_clears_actor_state (g : Group) (env : Env) (now : Int)
    (gu0 : Option GroupUser) (gu : GroupUser)
    (hok : env.ban_ok = true)
    (h1 : (get_or_create_group_user gu0).warns + 1 ≥ g.ban_on_warn_count)
    (h2 : gu.warns ≥ g.ban_on_warn_count) :
    (ban_command env gu0).1 = none ∧
    (warn_command g env now gu0).1 = none ∧
    (auto_escalate g env now gu Notice.floodBanned Notice.floodMuted
       LogAction.auto_ban_flood LogAction.auto_mute_flood).1 = none ∧
    get_or_create_group_user none = GroupUser.fresh ∧
    GroupUser.fresh.warns = 0 ∧ GroupUser.fresh.is_muted = false := by
  refine ⟨?_, ?_, ?_, rfl, rfl, rfl⟩
  · simp [ban_command, hok]
  · simp [warn_command, h1, hok]
  · simp [auto_escalate, h2, hok]

/-- C10: a message whose sender is the bot itself, a group administrator,
the group owner, or the configured bot owner is exempt from the whole
moderation pipeline: the stored state is untouched and no effect (no flood
update, warn, deletion, mute or ban) is produced; administrator status,
owner status, and the configured owner id each satisfy the exemption
test. -/
theorem privileged_senders_exempt (g : Group) (words : List (List Char))
    (env : Env) (now : Int) (user_id bot_id owner_user_id : Int)
    (member : Option MemberStatus) (msg : Message) (gu0 : Option GroupUser)
    (h : user_id = bot_id ∨
         is_user_admin_or_owner user_id owner_user_id member = true) :
    handle_all_messages g words env now user_id bot_id owner_user_id member msg gu0 =
      (gu0, []) ∧
    is_user_admin_or_owner user_id owner_user_id (some MemberStatus.administrator) = true ∧
    is_user_admin_or_owner user_id owner_user_id (some MemberStatus.owner) = true ∧
    is_user_admin_or_owner user_id user_id member = true := by
  refine ⟨?_, ?_, ?_, ?_⟩
  · simp [handle_all_messages, h]
  · unfold is_user_admin_or_owner; split <;> rfl
  · unfold is_user_admin_or_owner; split <;> rfl
  · simp [is_user_admin_or_owner]

/-- C3 (counterexample): the source's flood counter is not the claimed
fixed-window counter. On messages at times 0, 9, 18 with a 10-second window
the fixed-window description resets at time 18 (window opened at 0 has
expired, count back to 1), while the source increments to 3 because each
consecutive gap is below the window; already in the increment branch the
source refreshes the stored timestamp (to 9 after the second message) where
a fixed window keeps the window start 0. -/
theorem flood_fixed_window_refuted :
    (run_flood flood_update Group.defaults [0, 9, 18]
       GroupUser.fresh).message_count_in_interval = 3 ∧
    (run_flood flood_update_fixed_window Group.defaults [0, 9, 18]
       GroupUser.fresh).message_count_in_interval = 1 ∧
    (run_flood flood_update Group.defaults [0, 9]
       GroupUser.fresh).last_message_time = some 9 ∧
    (run_flood flood_update_fixed_window Group.defaults [0, 9]
       GroupUser.fresh).last_message_time = some 0 := by
  decide

/-- C3 (amended): the flood counter is keyed to the previous message's
timestamp, which is refreshed on every message (a consecutive-gap counter,
not a fixed window): when `now - last_message_time < anti_flood_time` the
count increments, otherwise it resets to 1, the stored timestamp becomes
`now` in both cases, and — with anti-flood enabled — the event is treated as
flood (processing stops on a violation) exactly when the incremented count
exceeds `anti_flood_limit`. -/
theorem flood_counter_consecutive_gap (g : Group) (env : Env) (now : Int)
    (gu : GroupUser) (hfl : g.anti_flood_enabled = true) :
    (flood_update g now gu).last_message_time = some now ∧
    (flood_update g now gu).message_count_in_interval =
      (match gu.last_message_time with
       | some lt => if now - lt < g.anti_flood_time
                    then gu.message_count_in_interval + 1 else 1
       | none => 1) ∧
    ((flood_stage g env now true gu).proceed = true ↔
      ¬ (flood_update g now gu).message_count_in_interval > g.anti_flood_limit) := by
  refine ⟨?_, ?_, ?_⟩
  · unfold flood_update
    cases h : gu.last_message_time <;> simp [h]
  · unfold flood_update
    cases h : gu.last_message_time
    · simp [h]
    · simp only [h]
      split <;> rfl
  · unfold flood_stage
    rcases env with ⟨adm, del, ban, rst, unr⟩
    by_cases hc : (flood_update g now gu).message_count_in_interval > g.anti_flood_limit <;>
      cases adm <;> cases del <;> simp [hfl, hc]

theorem warn_command_below (g : Group) (env : Env) (now : Int) (gu : GroupUser)
    (hb : gu.warns + 1 < g.ban_on_warn_count)
    (hm : gu.warns + 1 < g.mute_on_warn_count) :
    (warn_command g env now (some gu)).1 = some { gu with warns := gu.warns + 1 } := by
  unfold warn_command get_or_create_group_user
  rw [if_neg (by simp; omega), if_neg (by simp; omega)]

theorem warn_command_through_get_or_create (g : Group) (env : Env) (now : Int)
    (gu0 : Option GroupUser) :
    warn_command g env now gu0 =
      warn_command g env now (some (get_or_create_group_user gu0)) := rfl

theorem warn_command_mute_fail (g : Group) (env : Env) (now : Int) (gu : GroupUser)
    (hrs : env.restrict_ok = false)
    (hb : gu.warns + 1 < g.ban_on_warn_count)
    (hm : gu.warns + 1 ≥ g.mute_on_warn_count) :
    warn_command g env now (some gu) =
      (some { gu with warns := gu.warns + 1 },
       [Effect.adminLog LogAction.warn,
        Effect.restrictCall false (now + muteSeconds),
        Effect.sendGroup (Notice.warnReply (gu.warns + 1)
          (some ReplyExtra.muteFailed))]) := by
  unfold warn_command get_or_create_group_user
  rw [if_neg (by simp; omega), if_pos (by simp; omega), if_neg (by simp [hrs])]

theorem iterate_warn_fresh (g : Group) (env : Env) (now : Int) (n : Nat)
    (hb : (n : Int) < g.ban_on_warn_count) (hm : (n : Int) < g.mute_on_warn_count) :
    get_or_create_group_user (iterate_warn g env now n none) =
      { GroupUser.fresh with warns := (n : Int) } := by
  induction n with
  | zero => rfl
  | succ k ih =>
      have hb2 : (k : Int) < g.ban_on_warn_count := by push_cast at hb ⊢; omega
      have hm2 : (k : Int) < g.mute_on_warn_count := by push_cast at hm ⊢; omega
      have hk := ih hb2 hm2
      have hb3 : ({ GroupUser.fresh with warns := (k : Int) }).warns + 1 <
          g.ban_on_warn_count := by simp [GroupUser.fresh]; push_cast at hb; omega
      have hm3 : ({ GroupUser.fresh with warns := (k : Int) }).warns + 1 <
          g.mute_on_warn_count := by simp [GroupUser.fresh]; push_cast at hm; omega
      have hstep := warn_command_below g env now
        { GroupUser.fresh with warns := (k : Int) } hb3 hm3
      show get_or_create_group_user
        (warn_command g env now (iterate_warn g env now k none)).1 = _
      have harg : warn_command g env now (iterate_warn g env now k none) =
          warn_command g env now (some { GroupUser.fresh with warns := (k : Int) }) := by
        unfold warn_command
        rw [hk]
        rfl
      rw [harg, hstep]
      simp [get_or_create_group_user, GroupUser.fresh]

/-- C4: starting from no stored row, N consecutive violations through the
warn path, none of which reaches the mute or ban threshold, leave the actor
with warn count exactly N and not muted: each violation increments the count
by exactly one. -/
theorem n_violations_n_warns (g : Group) (env : Env) (now : Int) (n : Nat)
    (hb : (n : Int) < g.ban_on_warn_count) (hm : (n : Int) < g.mute_on_warn_count) :
    get_or_create_group_user (iterate_warn g env now n none) =
      { GroupUser.fresh with warns := (n : Int) } ∧
    (get_or_create_group_user (iterate_warn g env now n none)).warns = (n : Int) ∧
    (get_or_create_group_user (iterate_warn g env now n none)).is_muted = false := by
  have h := iterate_warn_fresh g env now n hb hm
  refine ⟨h, ?_, ?_⟩ <;> rw [h] <;> rfl

/-- C5: forbidden-word classification lowercases the message text and scans
the stored words in order for a substring match, acting on the first match
(message deleted, warn count incremented by one); stored words are
themselves lowercased on insertion. Scenario: with "spam" forbidden, the
message "this is SPAM" matches case-insensitively, is deleted, and the warn
count goes from 0 to 1. -/
theorem forbidden_word_match (g : Group) (env : Env) (now : Int)
    (words : List (List Char)) (t w : List Char) (gu : GroupUser)
    (hadm : env.is_bot_admin = true) (hdel : env.delete_ok = true)
    (hfind : words.find? (fun v => substring_in v (t.map Char.toLower)) = some w)
    (hb : gu.warns + 1 < g.ban_on_warn_count)
    (hm : gu.warns + 1 < g.mute_on_warn_count) :
    word_stage g env now words (some t) gu =
      { gu := some { gu with warns := gu.warns + 1 },
        effects := [Effect.deleteCall true,
                    Effect.sendGroup (Notice.wordWarn w (gu.warns + 1)),
                    Effect.adminLog LogAction.auto_warn_forbidden_word],
        proceed := false } ∧
    (add_forbidden_word [] ("spam".data)).1 = [("spam".data)] ∧
    word_stage Group.defaults Env.allOk 100 [("spam".data)]
        (some ("this is SPAM".data)) GroupUser.fresh =
      { gu := some { GroupUser.fresh with warns := 1 },
        effects := [Effect.deleteCall true,
                    Effect.sendGroup (Notice.wordWarn ("spam".data) 1),
                    Effect.adminLog LogAction.auto_warn_forbidden_word],
        proceed := false } := by
  refine ⟨?_, by decide, by decide⟩
  have hesc : auto_escalate g env now { gu with warns := gu.warns + 1 }
      Notice.wordBanned Notice.wordMuted LogAction.auto_ban_forbidden_word
      LogAction.auto_mute_forbidden_word = (some { gu with warns := gu.warns + 1 }, []) := by
    unfold auto_escalate
    rw [if_neg (by simp; omega), if_neg (by simp; omega)]
  unfold word_stage
  simp [hfind, hadm, hdel, hesc]

/-- C6 (counterexample): in the automatic flood path, when the restrict call
fails at the mute threshold, the warn increment stands and
`is_muted`/`mute_until` stay unset — but, contrary to the claim, the effect
trace records nothing about the failed enforcement (the admin-log table has
no succeeded flag and the only row written is the warn log) and contains no
notice to the group or its admins about the missing permission. -/
theorem mute_failure_unrecorded :
    (flood_stage Group.defaults envNoRestrict 100 true guNearMute).gu =
      some { warns := 3, is_muted := false, mute_until := none,
             last_message_time := some 100, message_count_in_interval := 6 } ∧
    (flood_stage Group.defaults envNoRestrict 100 true guNearMute).effects =
      [Effect.deleteCall true, Effect.sendGroup (Notice.floodWarn 3),
       Effect.adminLog LogAction.auto_warn_flood, Effect.restrictCall false 3700] ∧
    ((flood_stage Group.defaults envNoRestrict 100 true guNearMute).effects.filter
       Effect.isAdminLog) = [Effect.adminLog LogAction.auto_warn_flood] := by
  decide

/-- C6 (amended): when the restrict call fails at the mute threshold, the
engine leaves `is_muted`/`mute_until` unset and keeps the committed warn
increment; but no enforcement record of the failure is written (the admin
log records successes only) and the group is notified of the failure only in
the manual `/warn` path, whose aggregated reply carries a mute-failed
notice — the automatic pipeline emits no notification of the failure. -/
theorem mute_failure_partial_commit (g : Group) (env : Env) (now : Int)
    (gu : GroupUser) (gu0 : Option GroupUser)
    (hadm : env.is_bot_admin = true) (hdel : env.delete_ok = true)
    (hrs : env.restrict_ok = false) (hfl : g.anti_flood_enabled = true)
    (hex : (flood_update g now gu).message_count_in_interval > g.anti_flood_limit)
    (hm : gu.warns + 1 ≥ g.mute_on_warn_count)
    (hb : gu.warns + 1 < g.ban_on_warn_count)
    (hm0 : (get_or_create_group_user gu0).warns + 1 ≥ g.mute_on_warn_count)
    (hb0 : (get_or_create_group_user gu0).warns + 1 < g.ban_on_warn_count) :
    (flood_stage g env now true gu).gu =
      some { flood_update g now gu with warns := (flood_update g now gu).warns + 1 } ∧
    ({ flood_update g now gu with
       warns := (flood_update g now gu).warns + 1 }).warns = gu.warns + 1 ∧
    ({ flood_update g now gu with
       warns := (flood_update g now gu).warns + 1 }).is_muted = gu.is_muted ∧
    ({ flood_update g now gu with
       warns := (flood_update g now gu).warns + 1 }).mute_until = gu.mute_until ∧
    (flood_stage g env now true gu).effects =
      [Effect.deleteCall true, Effect.sendGroup (Notice.floodWarn (gu.warns + 1)),
       Effect.adminLog LogAction.auto_warn_flood,
       Effect.restrictCall false (now + muteSeconds)] ∧
    (warn_command g env now gu0).1 =
      some { get_or_create_group_user gu0 with
             warns := (get_or_create_group_user gu0).warns + 1 } ∧
    (warn_command g env now gu0).2 =
      [Effect.adminLog LogAction.warn,
       Effect.restrictCall false (now + muteSeconds),
       Effect.sendGroup (Notice.warnReply ((get_or_create_group_user gu0).warns + 1)
         (some ReplyExtra.muteFailed))] := by
  have hesc : auto_escalate g env now
      { flood_update g now gu with warns := (flood_update g now gu).warns + 1 }
      Notice.floodBanned Notice.floodMuted LogAction.auto_ban_flood
      LogAction.auto_mute_flood =
      (some { flood_update g now gu with warns := (flood_update g now gu).warns + 1 },
       [Effect.restrictCall false (now + muteSeconds)]) := by
    unfold auto_escalate
    rw [if_neg (by simp [flood_update_warns]; omega),
        if_pos (by simp [flood_update_warns]; omega), if_neg (by simp [hrs])]
  simp only [flood_update_warns] at hesc
  have hwc := warn_command_mute_fail g env now (get_or_create_group_user gu0) hrs hb0 hm0
  rw [warn_command_through_get_or_create, hwc]
  refine ⟨?_, ?_, ?_, ?_, ?_, rfl, rfl⟩
  · simp [flood_stage, hfl, hadm, hdel, hex, hesc, flood_update_warns]
  · simp [flood_update_warns]
  · simp [flood_update_is_muted]
  · simp [flood_update_mute_until]
  · simp [flood_stage, hfl, hadm, hdel, hex, hesc, flood_update_warns]

/-- C7 (counterexample): for an event from an actor marked muted whose
deadline has passed, the unrestrict-then-clear reconciliation does not
always run before rule evaluation: when the bot lacks admin rights the row
leaves the muted check with `is_muted` still true and no unrestrict call,
although the event does proceed to rule evaluation. -/
theorem expired_mute_not_always_cleared :
    isExpiredMute 100 guMutedExpired = true ∧
    muted_stage envNotAdmin 100 guMutedExpired =
      { gu := some guMutedExpired, effects := [], proceed := true } ∧
    guMutedExpired.is_muted = true := by
  decide

/-- C7 (amended): an event from a still-marked-muted actor whose deadline
has passed always proceeds to rule evaluation and is never deleted as a
muted actor's message; when the bot is admin, the clear of
`is_muted`/`mute_until` runs first (even when the unrestrict call fails),
while without admin rights the row is left marked muted. -/
theorem expired_mute_reconciled_before_rules (env : Env) (now mu : Int)
    (gu : GroupUser) (hmu : gu.is_muted = true) (hdl : gu.mute_until = some mu)
    (hlt : mu < now) :
    (muted_stage env now gu).proceed = true ∧
    ((muted_stage env now gu).effects.filter Effect.isDeleteCall) = [] ∧
    (muted_stage env now gu).gu =
      some (if env.is_bot_admin then { gu with is_muted := false, mute_until := none }
            else gu) := by
  unfold muted_stage mute_expired
  rcases env with ⟨adm, del, ban, rst, unr⟩
  cases adm <;> cases unr <;>
    simp [hmu, hdl, hlt, Effect.isDeleteCall, List.filter]

/-- C8 (counterexample): when the sweeper's unrestrict call fails with
`BadRequest` on an expired mute, the punishment fields are not left muted
for a retry: the row is cleared ("to prevent repeated attempts"), so the
next sweep no longer selects it. -/
theorem sweep_bad_request_clears :
    isExpiredMute 100 guSweep = true ∧
    (check_expired_mutes_step true UnrestrictOutcome.badRequest guSweep).1.is_muted
      = false ∧
    (check_expired_mutes_step true UnrestrictOutcome.badRequest guSweep).1.mute_until
      = none ∧
    isExpiredMute 100
      (check_expired_mutes_step true UnrestrictOutcome.badRequest guSweep).1 = false := by
  decide

/-- C8 (amended): the sweeper never changes the warn count, and its failure
handling splits by error kind: a non-BadRequest `TelegramError` leaves the
row muted so the next sweep retries, while a `BadRequest` clears the mute
fields without a log row, preventing further attempts. -/
theorem sweep_failure_handling (adm : Bool) (outcome : UnrestrictOutcome)
    (gu : GroupUser) :
    (check_expired_mutes_step adm outcome gu).1.warns = gu.warns ∧
    (check_expired_mutes_step true UnrestrictOutcome.telegramError gu).1 = gu ∧
    (check_expired_mutes_step true UnrestrictOutcome.badRequest gu).1 =
      { gu with is_muted := false, mute_until := none } := by
  refine ⟨?_, rfl, rfl⟩
  cases adm <;> cases outcome <;> rfl

/-- C9 (counterexample): a row violating the state invariant (`is_muted`
true with no `mute_until`) is not clamped to a safe default before use: the
muted check treats it as an unexpired mute and bases its moderation decision
on the corrupted values, deleting the message and stopping, with the
corrupted row stored unchanged. -/
theorem corrupted_state_not_clamped :
    guCorrupt.is_muted = true ∧ guCorrupt.mute_until = none ∧
    muted_stage Env.allOk 100 guCorrupt =
      { gu := some guCorrupt, effects := [Effect.deleteCall true],
        proceed := false } := by
  decide

/-- C9 (amended): corrupted state is not clamped: a row with `is_muted` true
and `mute_until` absent is treated as an indefinite, unexpired mute — the
actor's message is deleted (bot admin, delete succeeding) and processing
stops with the row unchanged; negative warn counts are never produced by the
only decrement site, which is guarded by `warns > 0`. -/
theorem invariant_violation_behavior (env : Env) (now : Int) (gu gu2 : GroupUser)
    (hmu : gu.is_muted = true) (hdl : gu.mute_until = none)
    (hadm : env.is_bot_admin = true) (hdel : env.delete_ok = true)
    (hnn : gu2.warns ≥ 0) :
    muted_stage env now gu =
      { gu := some gu, effects := [Effect.deleteCall true], proceed := false } ∧
    (unwarn_command_update gu2).warns ≥ 0 := by
  constructor
  · unfold muted_stage mute_expired
    simp [hmu, hdl, hadm, hdel]
  · unfold unwarn_command_update
    split
    · simp; omega
    · simpa using hnn

/-- Witness for the C1 theorem: with the default policy and everything
succeeding, an actor at four warns flooding again crosses ban (5) and mute
(3) at once, and exactly one ban call appears. -/
theorem one_action_class_ban_first_witness :
    ((flood_update Group.defaults 100 guBothThresholds).message_count_in_interval >
       Group.defaults.anti_flood_limit) ∧
    ((flood_stage Group.defaults Env.allOk 100 true guBothThresholds).effects.filter
        Effect.isBanCall).length =
      (if guBothThresholds.warns + 1 ≥ Group.defaults.ban_on_warn_count then 1
       else 0) :=
  ⟨by decide,
   (one_action_class_ban_first Group.defaults Env.allOk 100 none guBothThresholds
      rfl rfl rfl (by decide)).2.1⟩

/-- Witness for the C2 theorem: warning an actor at four warns under the
default policy bans them and deletes the row. -/
theorem ban_clears_actor_state_witness :
    ((get_or_create_group_user (some guWarnFour)).warns + 1 ≥
       Group.defaults.ban_on_warn_count) ∧
    (warn_command Group.defaults Env.allOk 0 (some guWarnFour)).1 = none :=
  ⟨by decide,
   (ban_clears_actor_state Group.defaults Env.allOk 0 (some guWarnFour) guWarnFive
      rfl (by decide) (by decide)).2.1⟩

/-- Witness for the amended C3 theorem at the default policy. -/
theorem flood_counter_consecutive_gap_witness :
    Group.defaults.anti_flood_enabled = true ∧
    (flood_update Group.defaults 100 guNearMute).last_message_time = some 100 :=
  ⟨rfl, (flood_counter_consecutive_gap Group.defaults Env.allOk 100 guNearMute rfl).1⟩

/-- Witness for the C4 theorem: two violations below the default thresholds
leave exactly two warns. -/
theorem n_violations_n_warns_witness :
    (((2 : Nat) : Int) < Group.defaults.ban_on_warn_count) ∧
    (get_or_create_group_user (iterate_warn Group.defaults Env.allOk 0 2 none)).warns =
      ((2 : Nat) : Int) :=
  ⟨by decide,
   (n_violations_n_warns Group.defaults Env.allOk 0 2 (by decide) (by decide)).2.1⟩

/-- Witness for the C5 theorem: the "this is SPAM" scenario. -/
theorem forbidden_word_match_witness :
    (GroupUser.fresh.warns + 1 < Group.defaults.ban_on_warn_count) ∧
    word_stage Group.defaults Env.allOk 100 [("spam".data)]
        (some ("this is SPAM".data)) GroupUser.fresh =
      { gu := some { GroupUser.fresh with warns := 1 },
        effects := [Effect.deleteCall true,
                    Effect.sendGroup (Notice.wordWarn ("spam".data) 1),
                    Effect.adminLog LogAction.auto_warn_forbidden_word],
        proceed := false } :=
  ⟨by decide,
   (forbidden_word_match Group.defaults Env.allOk 100 [("spam".data)]
      ("this is SPAM".data) ("spam".data) GroupUser.fresh rfl rfl (by decide)
      (by decide) (by decide)).2.2⟩

/-- Witness for the amended C6 theorem: flood at the mute threshold with the
restrict call failing. -/
theorem mute_failure_partial_commit_witness :
    (envNoRestrict.restrict_ok = false) ∧
    (flood_stage Group.defaults envNoRestrict 100 true guNearMute).gu =
      some { flood_update Group.defaults 100 guNearMute with
             warns := (flood_update Group.defaults 100 guNearMute).warns + 1 } :=
  ⟨rfl,
   (mute_failure_partial_commit Group.defaults envNoRestrict 100 guNearMute
      (some guNearMute) rfl rfl rfl rfl (by decide) (by decide) (by decide)
      (by decide) (by decide)).1⟩

/-- Witness for the amended C7 theorem: an expired mute at time 100. -/
theorem expired_mute_reconciled_before_rules_witness :
    (guMutedExpired.is_muted = true) ∧
    (muted_stage Env.allOk 100 guMutedExpired).proceed = true :=
  ⟨rfl,
   (expired_mute_reconciled_before_rules Env.allOk 100 50 guMutedExpired rfl rfl
      (by decide)).1⟩

/-- Witness for the amended C9 theorem: the corrupted row is used as an
indefinite mute. -/
theorem invariant_violation_behavior_witness :
    (guCorrupt.is_muted = true) ∧
    muted_stage Env.allOk 100 guCorrupt =
      { gu := some guCorrupt, effects := [Effect.deleteCall true],
        proceed := false } :=
  ⟨rfl,
   (invariant_violation_behavior Env.allOk 100 guCorrupt GroupUser.fresh rfl rfl rfl
      rfl (by decide)).1⟩

/-- Witness for the C10 theorem: the sender is the bot itself. -/
theorem privileged_senders_exempt_witness :
    ((5 : Int) = 5 ∨ is_user_admin_or_owner 5 9 (some MemberStatus.member) = true) ∧
    handle_all_messages Group.defaults [] Env.allOk 0 5 5 9
      (some MemberStatus.member) (Message.textOnly []) none = (none, []) :=
  ⟨Or.inl rfl,
   (privileged_senders_exempt Group.defaults [] Env.allOk 0 5 5 9
      (some MemberStatus.member) (Message.textOnly []) none (Or.inl rfl)).1⟩

end DigiAnti
